import Mathlib

/-!
Verification of the series-assembly pipeline of the PI-Data-Extract repository
(files `PI_Data.py` and `PI-Data-Extraction.py`).

The repository is thin glue over the PIconnect historian client plus pandas.
The embedding below models:
  * cell values (`Value`): numeric, string token, or the missing-value marker
    (pandas `NaN`); numeric payloads are modelled as integers, since no claim
    computes with fractional values;
  * a one-column raw series (`RawSeries`) as returned by the historian client
    (`point.interpolated_values` / `point.summaries`), carrying its pandas
    column name and a timezone-awareness flag on its index;
  * a dataframe (`Table`): column names, a timezone-awareness flag and rows
    of (timestamp, cells).  Timestamps are modelled as the instants they
    denote (`tz_convert` preserves the instant; `tz_localize(None)` merely
    drops the awareness flag);
  * every post-processing statement of the two scripts as a `Step`, so that
    the order in which the source applies the steps is itself a term of the
    model, and the four entry points (`PI_Call` / `PI_Call_Tag` of each file)
    as compositions of those steps.

Failure is explicit: everything fallible returns `Except PIError _`.  The
spec's `InvalidModeError` corresponds to the two print-and-return-None sites
(`PIError.invalidDataType`, `PIError.invalidSummaryType`); the spec's
`MappingError` corresponds to the only mapping-related failure the code can
actually produce, pandas' length-mismatch `ValueError` on
`data.columns = var_names` (`PIError.lengthMismatch`).
-/

/-- A cell of a dataframe: a numeric value, a string token, or the
missing-value marker (`NaN`). -/
inductive Value where
  | num (n : ℤ)
  | str (s : String)
  | na
deriving DecidableEq

deriving instance DecidableEq for Except

/-- Errors the scripts can produce.  `invalidDataType` / `invalidSummaryType`
are the two `print('ERROR: ...'); return` sites (the spec's
`InvalidModeError`); `emptyConcat` is pandas' `ValueError` on
`pd.concat([])`; `tzNotAware` is pandas' `TypeError` for `tz_convert` on a
timezone-naive index; `nameError` is Python's `NameError` for the undefined
`var_name` at `PI_Data.py:155`; `lengthMismatch` is pandas' `ValueError` on
assigning `columns` of the wrong length (the spec's `MappingError`);
`indexError` is `search(query)[0]` on an empty search result. -/
inductive PIError where
  | invalidDataType
  | invalidSummaryType
  | emptyConcat
  | tzNotAware
  | nameError
  | lengthMismatch
  | indexError
deriving DecidableEq

/-- One raw series from the historian client: a single-column frame with a
pandas column name, a timezone-aware index flag and (timestamp, value) rows. -/
structure RawSeries where
  colName : String
  tzAware : Bool
  rows : List (Int × Value)
deriving DecidableEq

/-- A dataframe: column names, whether its index is timezone-aware, and rows
of (timestamp, one cell per column). -/
structure Table where
  cols : List String
  tzAware : Bool
  rows : List (Int × List Value)
deriving DecidableEq

def RawSeries.stamps (s : RawSeries) : List Int := s.rows.map Prod.fst

def Table.stamps (t : Table) : List Int := t.rows.map Prod.fst

/-- `PIconnect.PIConsts.SummaryType` members used by the scripts. -/
inductive SummaryType where
  | AVERAGE
  | MAXIMUM
  | MINIMUM
  | TOTAL
  | RANGE
  | COUNT
  | STD_DEV
deriving DecidableEq

/-- The pandas column name PIconnect gives a summaries frame: the enum
member's name (the scripts rely on this when they rename `'AVERAGE'`). -/
def SummaryType.colLabel : SummaryType → String
  | .AVERAGE => "AVERAGE"
  | .MAXIMUM => "MAXIMUM"
  | .MINIMUM => "MINIMUM"
  | .TOTAL => "TOTAL"
  | .RANGE => "RANGE"
  | .COUNT => "COUNT"
  | .STD_DEV => "STD_DEV"

/-- The if/elif chain over `summaryType` shared by all four functions
(`PI_Data.py:127-143`, `PI_Data.py:171-187` and the same chains in
`PI-Data-Extraction.py`): the seven accepted strings, `none` otherwise. -/
def sumTypeOfString? (st : String) : Option SummaryType :=
  if st = "average" then some .AVERAGE
  else if st = "maximum" then some .MAXIMUM
  else if st = "minimum" then some .MINIMUM
  else if st = "total" then some .TOTAL
  else if st = "range" then some .RANGE
  else if st = "count" then some .COUNT
  else if st = "std_dev" then some .STD_DEV
  else none

/-- The external historian point (`server.search(...)` result): its tag and
the raw data its two query methods return for the fixed query window. -/
structure PIPoint where
  tag : String
  interpRows : List (Int × Value)
  summaryRows : SummaryType → List (Int × Value)

/-- `point.interpolated_values(start, end, interval)`: a series named after
the tag, with a timezone-aware index. -/
def PIPoint.interpolated_values (p : PIPoint) : RawSeries :=
  { colName := p.tag, tzAware := true, rows := p.interpRows }

/-- `point.summaries(start, end, interval, k)`: a one-column frame whose
column is named after the summary kind, with a timezone-aware index. -/
def PIPoint.summaries (p : PIPoint) (k : SummaryType) : RawSeries :=
  { colName := k.colLabel, tzAware := true, rows := p.summaryRows k }

/-- View a one-column series as a dataframe (`pd.DataFrame` on a series). -/
def RawSeries.toTable (s : RawSeries) : Table :=
  { cols := [s.colName], tzAware := s.tzAware, rows := s.rows.map fun r => (r.1, [r.2]) }

/-- `rename(columns={old: new})` on a one-column series: renames the column
iff its name matches. -/
def RawSeries.renameIf (s : RawSeries) (old new : String) : RawSeries :=
  { s with colName := if s.colName = old then new else s.colName }

/-- The value of the cell of a series at timestamp `τ` after reindexing:
the stored value at the first matching stamp, the missing marker if absent. -/
def lookupTS (τ : Int) : List (Int × Value) → Value
  | [] => .na
  | r :: rest => if τ = r.1 then r.2 else lookupTS τ rest

/-- The index `pd.concat(axis=1)` builds for monotone per-series indexes, as
the historian supplies: the sorted duplicate-free union of all stamps. -/
def unionStamps (series : List RawSeries) : List Int :=
  List.insertionSort (fun a b => a ≤ b) ((series.map RawSeries.stamps).flatten).dedup

/-- The dataframe `pd.concat(series, axis=1)` assembles: columns in input
order, each cell looked up in its own series (outer join on the index). -/
def concatTable (series : List RawSeries) : Table :=
  { cols := series.map RawSeries.colName,
    tzAware := series.all RawSeries.tzAware,
    rows := (unionStamps series).map fun τ => (τ, series.map fun s => lookupTS τ s.rows) }

/-- `pd.concat(data, axis=1)` (`PI_Data.py:149`, `PI-Data-Extraction.py:107`):
`ValueError` on an empty list, otherwise the outer-joined frame. -/
def concatOuter : List RawSeries → Except PIError Table
  | [] => .error .emptyConcat
  | series => .ok (concatTable series)

/-- Apply a function to every cell of every row (`DataFrame.replace` with a
scalar/dict argument, and `DataFrame.apply(pd.to_numeric)`, act cell-wise). -/
def mapCells (f : Value → Value) (t : Table) : Table :=
  { t with rows := t.rows.map fun r => (r.1, r.2.map f) }

/-- The categorical substitution `replace({'RUNNING': 1, 'STOPPED': 0,
'FAIL': 0})` (`PI_Data.py:154,196`): exact, case-sensitive whole-cell match;
every other cell is untouched. -/
def catSub (v : Value) : Value :=
  match v with
  | .str s =>
      if s = "RUNNING" then .num 1
      else if s = "STOPPED" then .num 0
      else if s = "FAIL" then .num 0
      else .str s
  | v => v

/-- The historian's bad-calculation sentinel string
(`PI_Data.py:158,200`). -/
def sentinel : String := "[-11059] No Good Data For Calculation"

/-- `replace('[-11059] No Good Data For Calculation', np.nan)` on one cell. -/
def scrubCell (v : Value) : Value :=
  if v = .str sentinel then .na else v

/-- Accumulate decimal digits; `none` as soon as a non-digit appears. -/
def digitsToNat : List Char → Nat → Option Nat
  | [], acc => some acc
  | c :: cs, acc =>
      if c.isDigit then digitsToNat cs (acc * 10 + (c.toNat - Char.toNat '0'))
      else none

/-- Parse an optionally-signed decimal integer literal, `none` otherwise. -/
def parseIntLit (s : String) : Option Int :=
  match s.data with
  | [] => none
  | '-' :: rest => if rest = [] then none else (digitsToNat rest 0).map fun n => -(n : Int)
  | l => (digitsToNat l 0).map fun n => (n : Int)

/-- `pd.to_numeric(errors='coerce')` on one cell: numerics and the missing
marker pass through, a string parses as a numeric literal or degrades to the
missing marker.  (Numeric literals are modelled as integer literals; nothing
in the claims depends on fractional parsing.) -/
def coerceCell (v : Value) : Value :=
  match v with
  | .num n => .num n
  | .na => .na
  | .str s => match parseIntLit s with
    | some n => .num n
    | none => .na

/-- `data.drop(data.tail(1).index)` (`PI_Data.py:156,198`): drop every row
whose index label equals the last row's label (a no-op on an empty frame). -/
def dropTailRows (t : Table) : Table :=
  match t.rows.getLast? with
  | none => t
  | some r => { t with rows := t.rows.filter fun x => !(x.1 == r.1) }

/-- `rename(columns={old: new})` on a dataframe: every matching column name
is replaced, nothing else changes, never an error. -/
def renameColTable (old new : String) (t : Table) : Table :=
  { t with cols := t.cols.map fun c => if c = old then new else c }

/-- One post-processing statement of the scripts.  Keeping the statements as
data makes the order in which the source applies them part of the model. -/
inductive Step where
  /-- `data = data.tz_convert('Canada/Pacific').tz_localize(None)`:
  `tz_convert` keeps each instant and requires an aware index (pandas raises
  `TypeError` on a naive one); `tz_localize(None)` drops the awareness. -/
  | tzConvertLocalize
  /-- `data = pd.DataFrame(data)`: the identity on an already tabular value. -/
  | toDataFrame
  /-- `data = data.replace({'RUNNING': 1, 'STOPPED': 0, 'FAIL': 0})`. -/
  | catReplace
  /-- `data = data.rename(columns={old: new})`. -/
  | renameCols (old new : String)
  /-- `data = data.rename(columns={query: var_name})` at `PI_Data.py:155`,
  where `var_name` is not defined in `PI_Call`'s scope: raises `NameError`. -/
  | renameBroken
  /-- `data = data.drop(data.tail(1).index)`. -/
  | dropTail
  /-- `data = data.apply(pd.to_numeric, errors='coerce')`. -/
  | toNumeric
  /-- `data = data.replace('[-11059] No Good Data For Calculation', np.nan)`. -/
  | scrub
  /-- `data.columns = names`: pandas raises `ValueError` unless the assigned
  list has exactly one name per column. -/
  | setCols (names : List String)
deriving DecidableEq

/-- Execute one statement. -/
def Step.run : Step → Table → Except PIError Table
  | .tzConvertLocalize, t =>
      if t.tzAware then .ok { t with tzAware := false } else .error .tzNotAware
  | .toDataFrame, t => .ok t
  | .catReplace, t => .ok (mapCells catSub t)
  | .renameCols old new, t => .ok (renameColTable old new t)
  | .renameBroken, _ => .error .nameError
  | .dropTail, t => .ok (dropTailRows t)
  | .toNumeric, t => .ok (mapCells coerceCell t)
  | .scrub, t => .ok (mapCells scrubCell t)
  | .setCols names, t =>
      if names.length = t.cols.length then .ok { t with cols := names }
      else .error .lengthMismatch

/-- Execute a sequence of statements, stopping at the first error. -/
def runSteps : List Step → Table → Except PIError Table
  | [], t => .ok t
  | s :: rest, t =>
      match s.run t with
      | .ok t' => runSteps rest t'
      | .error e => .error e

namespace PIData

/-!  Embedding of `src/PI_Data.py`. -/

/-- The per-point loop of `PI_Call` (`PI_Data.py:123-148`).  In the sampled
branch (line 124-125) `tmp` is computed but never appended: the
`data.append(tmp)` at line 145 is indented inside the summary branch, so
sampled mode leaves the collected list empty.  In the summary branch the
frame is renamed `{'AVERAGE': point.tag}` (line 144) and appended.  The two
`print('ERROR: ...'); return` sites become errors. -/
def collect : List PIPoint → String → String → Except PIError (List RawSeries)
  | [], _, _ => .ok []
  | p :: ps, dataType, summaryType =>
    if dataType = "sampled" then
      collect ps dataType summaryType
    else if dataType = "summary" then
      match sumTypeOfString? summaryType with
      | none => .error .invalidSummaryType
      | some k =>
        match collect ps dataType summaryType with
        | .ok rest => .ok ((p.summaries k).renameIf "AVERAGE" p.tag :: rest)
        | .error e => .error e
    else .error .invalidDataType

/-- The post-concat statements of `PI_Call` in source order
(`PI_Data.py:150-159`): the timezone normalization (150), the sampled-only
block (152-156: `pd.DataFrame`, a second `tz_convert` on the now naive
index, the categorical `replace`, the `rename(columns={query: var_name})`
whose `var_name` is undefined, the tail drop), then numeric coercion (157),
the sentinel `replace` (158) and finally `data.columns = var_names` (159). -/
def PI_Call_steps (dataType : String) (var_names : List String) : List Step :=
  ([Step.tzConvertLocalize] ++
    (if dataType = "sampled" then
      [Step.toDataFrame, Step.tzConvertLocalize, Step.catReplace,
       Step.renameBroken, Step.dropTail]
    else []) ++
    [Step.toNumeric, Step.scrub]) ++ [Step.setCols var_names]

/-- `PI_Call` of `PI_Data.py:80-161`.  `query` and `var_names` are the two
csv columns (the tag map); `points` is what `server.search(query)` returned.
After the search the code uses `query` only in the unreachable broken rename
at line 155, which raises `NameError` before the dict is formed. -/
def PI_Call (query : List String) (var_names : List String) (points : List PIPoint)
    (dataType : String) (summaryType : String) : Except PIError Table :=
  match collect points dataType summaryType with
  | .error e => .error e
  | .ok series =>
    match concatOuter series with
    | .error e => .error e
    | .ok t => runSteps (PI_Call_steps dataType var_names) t

/-- The summary-branch statements of `PI_Call_Tag` (`PI_Data.py:188-189`):
`rename(columns={'AVERAGE': var_name})` then the timezone normalization. -/
def PI_Call_Tag_sumSteps (var_name : String) : List Step :=
  [Step.renameCols "AVERAGE" var_name, Step.tzConvertLocalize]

/-- The sampled-block statements of `PI_Call_Tag` (`PI_Data.py:194-198`):
`pd.DataFrame`, the timezone normalization, the categorical `replace`,
`rename(columns={query: var_name})` (here `query` and `var_name` are the
function's own string arguments, so the rename is well defined), and the
tail drop. -/
def PI_Call_Tag_samSteps (query var_name : String) : List Step :=
  [Step.toDataFrame, Step.tzConvertLocalize, Step.catReplace,
   Step.renameCols query var_name, Step.dropTail]

/-- The shared tail of `PI_Call_Tag` (`PI_Data.py:199-200`): numeric
coercion, then the sentinel `replace`.  (Line 201, `data.columns[0] =
var_name`, is commented out.) -/
def postSteps : List Step := [Step.toNumeric, Step.scrub]

/-- `PI_Call_Tag` of `PI_Data.py:163-203`.  `searchResult` is what
`server.search(query)` returned; line 166 takes its element `[0]`
(`IndexError` when empty) and every other match is ignored. -/
def PI_Call_Tag (searchResult : List PIPoint) (query var_name : String)
    (dataType : String) (summaryType : String) : Except PIError Table :=
  match searchResult.head? with
  | none => .error .indexError
  | some point =>
    if dataType = "sampled" then
      runSteps (PI_Call_Tag_samSteps query var_name ++ postSteps)
        point.interpolated_values.toTable
    else if dataType = "summary" then
      match sumTypeOfString? summaryType with
      | none => .error .invalidSummaryType
      | some k =>
        runSteps (PI_Call_Tag_sumSteps var_name ++ postSteps) (point.summaries k).toTable
    else .error .invalidDataType

end PIData

namespace PIDataExtraction

/-!  Embedding of `src/PI-Data-Extraction.py`. -/

/-- The per-point loop of `PI_Call` (`PI-Data-Extraction.py:79-105`).  As in
the other file, the sampled branch computes `tmp` but never appends it
(lines 100-101 are indented inside the summary branch).  The summary branch
sets `tmp.columns = [point.tag]` (line 100), which on the one-column frame
always succeeds. -/
def collect : List PIPoint → String → String → Except PIError (List RawSeries)
  | [], _, _ => .ok []
  | p :: ps, dataType, summaryType =>
    if dataType = "sampled" then
      collect ps dataType summaryType
    else if dataType = "summary" then
      match sumTypeOfString? summaryType with
      | none => .error .invalidSummaryType
      | some k =>
        match collect ps dataType summaryType with
        | .ok rest => .ok ({ p.summaries k with colName := p.tag } :: rest)
        | .error e => .error e
    else .error .invalidDataType

/-- The post-concat statements of `PI_Call`
(`PI-Data-Extraction.py:108-109`): the timezone normalization, then
`data.columns = var_names`.  The pre-processing block (lines 111-116) is
commented out in the source. -/
def PI_Call_steps (var_names : List String) : List Step :=
  [Step.tzConvertLocalize] ++ [Step.setCols var_names]

/-- `PI_Call` of `PI-Data-Extraction.py:37-118`. -/
def PI_Call (query : List String) (var_names : List String) (points : List PIPoint)
    (dataType : String) (summaryType : String) : Except PIError Table :=
  match collect points dataType summaryType with
  | .error e => .error e
  | .ok series =>
    match concatOuter series with
    | .error e => .error e
    | .ok t => runSteps (PI_Call_steps var_names) t

/-- `PI_Call_Tag` of `PI-Data-Extraction.py:120-190`.  Line 153 takes the
search result's element `[0]`.  The sampled branch (line 156) returns the
interpolated series with no post-processing at all (lines 182-188 are
commented out); the summary branch sets `data.columns = [var_name]` (175)
and normalizes the timezone (176). -/
def PI_Call_Tag (searchResult : List PIPoint) (query var_name : String)
    (dataType : String) (summaryType : String) : Except PIError Table :=
  match searchResult.head? with
  | none => .error .indexError
  | some point =>
    if dataType = "sampled" then
      .ok point.interpolated_values.toTable
    else if dataType = "summary" then
      match sumTypeOfString? summaryType with
      | none => .error .invalidSummaryType
      | some k =>
        runSteps [Step.setCols [var_name], Step.tzConvertLocalize]
          (point.summaries k).toTable
    else .error .invalidDataType

end PIDataExtraction

/-! ### Basic lemmas about the step machinery -/

theorem runSteps_append (l₁ l₂ : List Step) (t : Table) :
    runSteps (l₁ ++ l₂) t =
      match runSteps l₁ t with
      | .ok t' => runSteps l₂ t'
      | .error e => .error e := by
  induction l₁ generalizing t with
  | nil => rfl
  | cons s rest ih =>
      simp only [List.cons_append, runSteps]
      cases s.run t with
      | ok t' => exact ih t'
      | error e => rfl

@[simp] theorem mapCells_cols (f : Value → Value) (t : Table) :
    (mapCells f t).cols = t.cols := rfl

@[simp] theorem mapCells_tzAware (f : Value → Value) (t : Table) :
    (mapCells f t).tzAware = t.tzAware := rfl

@[simp] theorem mapCells_stamps (f : Value → Value) (t : Table) :
    (mapCells f t).stamps = t.stamps := by
  simp [mapCells, Table.stamps, List.map_map, Function.comp]

@[simp] theorem mapCells_length (f : Value → Value) (t : Table) :
    (mapCells f t).rows.length = t.rows.length := by
  simp [mapCells]

@[simp] theorem renameColTable_rows (old new : String) (t : Table) :
    (renameColTable old new t).rows = t.rows := rfl

@[simp] theorem renameColTable_tzAware (old new : String) (t : Table) :
    (renameColTable old new t).tzAware = t.tzAware := rfl

@[simp] theorem dropTailRows_cols (t : Table) :
    (dropTailRows t).cols = t.cols := by
  unfold dropTailRows
  cases t.rows.getLast? <;> rfl

@[simp] theorem dropTailRows_tzAware (t : Table) :
    (dropTailRows t).tzAware = t.tzAware := by
  unfold dropTailRows
  cases t.rows.getLast? <;> rfl

theorem lookupTS_eq_na (τ : Int) (rows : List (Int × Value))
    (h : τ ∉ rows.map Prod.fst) : lookupTS τ rows = .na := by
  induction rows with
  | nil => rfl
  | cons r rest ih =>
      simp only [List.map_cons, List.mem_cons] at h
      push_neg at h
      simp only [lookupTS, if_neg h.1]
      exact ih h.2

theorem mem_unionStamps (series : List RawSeries) (τ : Int) :
    τ ∈ unionStamps series ↔ ∃ s ∈ series, τ ∈ s.stamps := by
  unfold unionStamps
  rw [(List.perm_insertionSort _ _).mem_iff, List.mem_dedup, List.mem_flatten]
  constructor
  · rintro ⟨l, hl, hτ⟩
    obtain ⟨s, hs, rfl⟩ := List.mem_map.mp hl
    exact ⟨s, hs, hτ⟩
  · rintro ⟨s, hs, hτ⟩
    exact ⟨s.stamps, List.mem_map_of_mem _ hs, hτ⟩

theorem sorted_unionStamps (series : List RawSeries) :
    (unionStamps series).Sorted (· ≤ ·) := by
  unfold unionStamps
  exact List.sorted_insertionSort _ _

theorem nodup_unionStamps (series : List RawSeries) :
    (unionStamps series).Nodup := by
  unfold unionStamps
  have h := List.perm_insertionSort (fun a b => a ≤ b)
      ((series.map RawSeries.stamps).flatten).dedup
  exact h.symm.nodup (List.nodup_dedup _)

theorem mem_of_getLast?_eq (l : List (Int × List Value)) (r : Int × List Value)
    (h : l.getLast? = some r) : r ∈ l := by
  induction l with
  | nil => simp at h
  | cons a rest ih =>
      cases rest with
      | nil =>
          simp only [List.getLast?_singleton, Option.some.injEq] at h
          simp [h]
      | cons b rest' =>
          rw [List.getLast?_cons_cons] at h
          exact List.mem_cons_of_mem _ (ih h)

theorem filter_ne_last_length (l : List (Int × List Value)) (r : Int × List Value)
    (hl : l.getLast? = some r) (h : (l.map Prod.fst).Nodup) :
    (l.filter fun x => !(x.1 == r.1)).length = l.length - 1 := by
  induction l with
  | nil => simp at hl
  | cons a rest ih =>
      cases rest with
      | nil =>
          simp only [List.getLast?_singleton, Option.some.injEq] at hl
          subst hl
          simp [List.filter]
      | cons b rest' =>
          rw [List.getLast?_cons_cons] at hl
          simp only [List.map_cons, List.nodup_cons, List.mem_cons] at h
          have hrmem : r ∈ b :: rest' := mem_of_getLast?_eq _ _ hl
          have hne : a.1 ≠ r.1 := by
            intro heq
            rcases List.mem_cons.mp hrmem with hb | hm
            · exact h.1 (Or.inl (by rw [heq, hb]))
            · exact h.1 (Or.inr (heq ▸ List.mem_map_of_mem Prod.fst hm))
          rw [List.filter_cons_of_pos (by simp [hne])]
          have hrec := ih hl (List.nodup_cons.mpr ⟨h.2.1, h.2.2⟩)
          simp only [List.length_cons, hrec]
          omega

theorem dropTailRows_length (t : Table) (h : t.stamps.Nodup) :
    (dropTailRows t).rows.length = t.rows.length - 1 := by
  rw [dropTailRows]
  cases hgl : t.rows.getLast? with
  | none =>
      have hnil : t.rows = [] := by
        cases hr : t.rows with
        | nil => rfl
        | cons a rest => rw [hr] at hgl; simp [List.getLast?_eq_getLast] at hgl
      simp [hnil]
  | some r => exact filter_ne_last_length t.rows r hgl h

theorem dropTailRows_length_le (t : Table) :
    (dropTailRows t).rows.length ≤ t.rows.length := by
  rw [dropTailRows]
  cases t.rows.getLast? with
  | none => exact le_refl _
  | some r => exact List.length_filter_le _ _

/-! ### Lemmas about the collection loops -/

/-- In sampled mode the loop of `PI_Call` (`PI_Data.py`) collects nothing:
the append at line 145 is inside the summary branch. -/
theorem PIData.collect_data_sampled (points : List PIPoint) (st : String) :
    PIData.collect points "sampled" st = .ok [] := by
  induction points with
  | nil => rfl
  | cons p ps ih => simp only [PIData.collect, if_pos rfl]; exact ih

/-- In summary mode with a recognised kind, the loop of `PI_Call`
(`PI_Data.py`) collects one renamed summaries frame per point, in order. -/
theorem PIData.collect_data_summary (points : List PIPoint) (st : String) (k : SummaryType)
    (hk : sumTypeOfString? st = some k) :
    PIData.collect points "summary" st =
      .ok (points.map fun p => (p.summaries k).renameIf "AVERAGE" p.tag) := by
  induction points with
  | nil => rfl
  | cons p ps ih =>
      simp [PIData.collect, hk, ih]

theorem PIDataExtraction.collect_extract_sampled (points : List PIPoint) (st : String) :
    PIDataExtraction.collect points "sampled" st = .ok [] := by
  induction points with
  | nil => rfl
  | cons p ps ih => simp only [PIDataExtraction.collect, if_pos rfl]; exact ih

theorem PIDataExtraction.collect_extract_summary (points : List PIPoint) (st : String)
    (k : SummaryType) (hk : sumTypeOfString? st = some k) :
    PIDataExtraction.collect points "summary" st =
      .ok (points.map fun p => { p.summaries k with colName := p.tag }) := by
  induction points with
  | nil => rfl
  | cons p ps ih =>
      simp [PIDataExtraction.collect, hk, ih]

/-! ### Shared lemmas about individual cells -/

theorem mapCells_mapCells (f g : Value → Value) (t : Table) :
    mapCells f (mapCells g t) = mapCells (fun v => f (g v)) t := by
  simp [mapCells, List.map_map, Function.comp]

theorem scrubCell_scrubCell (v : Value) : scrubCell (scrubCell v) = scrubCell v := by
  unfold scrubCell
  by_cases h : v = .str sentinel
  · simp [h]
  · simp [h]

theorem scrubCell_coerceCell (v : Value) :
    scrubCell (coerceCell v) = coerceCell (scrubCell v) := by
  cases v with
  | num n => rfl
  | na => rfl
  | str s =>
      by_cases hs : s = sentinel
      · subst hs
        have h1 : parseIntLit sentinel = none := by decide
        have h2 : coerceCell (.str sentinel) = .na := by
          show (match parseIntLit sentinel with
                | some n => Value.num n
                | none => Value.na) = .na
          rw [h1]
        have h3 : scrubCell (.str sentinel) = .na := by simp [scrubCell]
        rw [h2, h3]
        rfl
      · have h3 : scrubCell (.str s) = .str s := by simp [scrubCell, hs]
        rw [h3]
        have h2 : coerceCell (.str s) = match parseIntLit s with
            | some n => Value.num n
            | none => Value.na := rfl
        rw [h2]
        cases hp : parseIntLit s with
        | some n => simp [scrubCell]
        | none => simp [scrubCell]

/-! ### Sample data used by the concrete witnesses and counterexamples -/

/-- A historian point whose interpolated data mixes a numeric value, a state
token and another numeric value, and whose summaries hold two numeric rows. -/
def samplePoint : PIPoint :=
  { tag := "T1",
    interpRows := [(0, .num 5), (1, .str "RUNNING"), (2, .num 7)],
    summaryRows := fun _ => [(0, .num 3), (1, .num 4)] }

/-- A historian point whose tag is absent from the sample tag map. -/
def strayPoint : PIPoint :=
  { tag := "X",
    interpRows := [],
    summaryRows := fun _ => [(0, .num 3)] }

/-! ### C8 — sentinel scrub idempotence -/

/-- C8: the sentinel scrub (`data.replace('[-11059] No Good Data For
Calculation', np.nan)`, `PI_Data.py:158,200`) is idempotent: running the
scrub statement twice produces the same table as running it once. -/
theorem c8_scrub_idempotent (t : Table) :
    runSteps [Step.scrub, Step.scrub] t = runSteps [Step.scrub] t := by
  show Except.ok (mapCells scrubCell (mapCells scrubCell t)) = Except.ok (mapCells scrubCell t)
  rw [mapCells_mapCells]
  have : (fun v => scrubCell (scrubCell v)) = scrubCell := funext scrubCell_scrubCell
  rw [this]

/-! ### C9 — only the first search match is used -/

/-- C9: both files' `PI_Call_Tag` take `server.search(query)[0]`
(`PI_Data.py:166`, `PI-Data-Extraction.py:153`): whatever further points the
search returned, the output is built from the first one alone. -/
theorem c9_first_point_only (p : PIPoint) (rest : List PIPoint)
    (query var_name dataType summaryType : String) :
    PIData.PI_Call_Tag (p :: rest) query var_name dataType summaryType =
      PIData.PI_Call_Tag [p] query var_name dataType summaryType ∧
    PIDataExtraction.PI_Call_Tag (p :: rest) query var_name dataType summaryType =
      PIDataExtraction.PI_Call_Tag [p] query var_name dataType summaryType :=
  ⟨rfl, rfl⟩

/-! ### C10 — sampled mode of `PI_Call` in `PI_Data.py` never returns -/

/-- C10 counterexample: at a concrete input, sampled-mode `PI_Call` of
`PI_Data.py` does raise, but the exception is the empty-concat `ValueError`
of line 149 — not the `tz_convert`-on-naive-index `TypeError` of line 153
and not the `NameError` on `var_name` of line 155, which sit in code that is
never reached (the sampled branch of the loop never appends to `data`). -/
theorem c10_counterexample :
    PIData.PI_Call ["T1"] ["P200_ON"] [samplePoint] "sampled" "average" =
      .error .emptyConcat ∧
    PIError.emptyConcat ≠ PIError.tzNotAware ∧
    PIError.emptyConcat ≠ PIError.nameError := by
  decide

/-- C10 amended: for every input, sampled-mode `PI_Call` of `PI_Data.py`
raises before returning — sampled mode in this file can never return a
table — but the exception is `pd.concat([])`'s `ValueError` at line 149,
because the append at line 145 sits inside the summary branch; the
re-applied `tz_convert` at line 153 and the undefined `var_name` at line 155
are genuine faults (shown by the last two conjuncts) in unreachable code. -/
theorem c10_sampled_never_returns (query var_names : List String)
    (points : List PIPoint) (summaryType : String) :
    PIData.PI_Call query var_names points "sampled" summaryType =
      .error .emptyConcat ∧
    (∀ t : Table, Step.tzConvertLocalize.run { t with tzAware := false } =
      .error .tzNotAware) ∧
    (∀ t : Table, Step.renameBroken.run t = .error .nameError) := by
  refine ⟨?_, fun t => rfl, fun t => rfl⟩
  unfold PIData.PI_Call
  rw [PIData.collect_data_sampled]
  rfl

/-! ### C7 — ordering of the sentinel scrub and the numeric coercion -/

/-- C7 counterexample: in every pipeline of `PI_Data.py` — both modes of
`PI_Call` (lines 157-158) and both modes of `PI_Call_Tag` (lines 199-200) —
the sentinel scrub does NOT come before the numeric coercion: at the
representative arguments below, the scrub's position is never smaller than
the coercion's. -/
theorem c7_counterexample :
    ¬ (List.indexOf Step.scrub (PIData.PI_Call_steps "summary" ["V"]) <
       List.indexOf Step.toNumeric (PIData.PI_Call_steps "summary" ["V"])) ∧
    ¬ (List.indexOf Step.scrub (PIData.PI_Call_steps "sampled" ["V"]) <
       List.indexOf Step.toNumeric (PIData.PI_Call_steps "sampled" ["V"])) ∧
    ¬ (List.indexOf Step.scrub (PIData.PI_Call_Tag_sumSteps "V" ++ PIData.postSteps) <
       List.indexOf Step.toNumeric (PIData.PI_Call_Tag_sumSteps "V" ++ PIData.postSteps)) ∧
    ¬ (List.indexOf Step.scrub (PIData.PI_Call_Tag_samSteps "T1" "V" ++ PIData.postSteps) <
       List.indexOf Step.toNumeric (PIData.PI_Call_Tag_samSteps "T1" "V" ++ PIData.postSteps)) := by
  decide

/-- C7 amended: in both modes the code applies numeric coercion first and
the sentinel scrub immediately after it (every pipeline ends the pair as
`... ++ [toNumeric, scrub] ++ ...`), and the two orders are observationally
interchangeable: running coercion-then-scrub equals running
scrub-then-coercion on every table, because coercion already sends every
non-numeric string — the sentinel included — to the missing-value marker,
after which the scrub finds nothing to replace. -/
theorem c7_amended :
    (∀ (dataType : String) (vn : List String), ∃ l₁ l₂,
        PIData.PI_Call_steps dataType vn = l₁ ++ [Step.toNumeric, Step.scrub] ++ l₂) ∧
    (∀ q v : String, ∃ l₁,
        PIData.PI_Call_Tag_samSteps q v ++ PIData.postSteps = l₁ ++ [Step.toNumeric, Step.scrub]) ∧
    (∀ v : String, ∃ l₁,
        PIData.PI_Call_Tag_sumSteps v ++ PIData.postSteps = l₁ ++ [Step.toNumeric, Step.scrub]) ∧
    (∀ t : Table, runSteps [Step.toNumeric, Step.scrub] t =
        runSteps [Step.scrub, Step.toNumeric] t) := by
  refine ⟨?_, ?_, ?_, ?_⟩
  · intro dataType vn
    refine ⟨[Step.tzConvertLocalize] ++
      (if dataType = "sampled" then
        [Step.toDataFrame, Step.tzConvertLocalize, Step.catReplace,
         Step.renameBroken, Step.dropTail]
      else []), [Step.setCols vn], ?_⟩
    simp [PIData.PI_Call_steps, List.append_assoc]
  · intro q v
    exact ⟨PIData.PI_Call_Tag_samSteps q v, rfl⟩
  · intro v
    exact ⟨PIData.PI_Call_Tag_sumSteps v, rfl⟩
  · intro t
    show Except.ok (mapCells scrubCell (mapCells coerceCell t)) =
      Except.ok (mapCells coerceCell (mapCells scrubCell t))
    rw [mapCells_mapCells, mapCells_mapCells]
    have : (fun v => scrubCell (coerceCell v)) = fun v => coerceCell (scrubCell v) :=
      funext scrubCell_coerceCell
    rw [this]

/-! ### C5 — categorical substitution, sampled mode only -/

/-- C5: the categorical substitution statement
(`data.replace({'RUNNING': 1, 'STOPPED': 0, 'FAIL': 0})`,
`PI_Data.py:154,196`) maps a cell exactly equal to `RUNNING` to `1`,
`STOPPED` to `0` and `FAIL` to `0` (case-sensitive whole-cell match), leaves
every other string token — and every numeric or missing cell — untouched,
acts on every cell of the table, and appears in the sampled pipelines only:
it is absent from every summary-mode pipeline of both files. -/
theorem c5_categorical_substitution (q v : String) (vn : List String) (s : String)
    (h1 : s ≠ "RUNNING") (h2 : s ≠ "STOPPED") (h3 : s ≠ "FAIL") :
    catSub (.str "RUNNING") = .num 1 ∧
    catSub (.str "STOPPED") = .num 0 ∧
    catSub (.str "FAIL") = .num 0 ∧
    catSub (.str s) = .str s ∧
    (∀ n : ℤ, catSub (.num n) = .num n) ∧
    catSub .na = .na ∧
    (∀ t : Table, Step.catReplace.run t = .ok (mapCells catSub t)) ∧
    Step.catReplace ∈ PIData.PI_Call_Tag_samSteps q v ++ PIData.postSteps ∧
    Step.catReplace ∈ PIData.PI_Call_steps "sampled" vn ∧
    Step.catReplace ∉ PIData.PI_Call_Tag_sumSteps v ++ PIData.postSteps ∧
    Step.catReplace ∉ PIData.PI_Call_steps "summary" vn ∧
    Step.catReplace ∉ PIDataExtraction.PI_Call_steps vn := by
  refine ⟨rfl, rfl, rfl, ?_, fun n => rfl, rfl, fun t => rfl, ?_, ?_, ?_, ?_, ?_⟩
  · simp [catSub, h1, h2, h3]
  · simp [PIData.PI_Call_Tag_samSteps]
  · simp [PIData.PI_Call_steps]
  · simp [PIData.PI_Call_Tag_sumSteps, PIData.postSteps]
  · simp [PIData.PI_Call_steps]
  · simp [PIDataExtraction.PI_Call_steps]

/-- C5 witness: the theorem applied at concrete arguments; in particular
the untouched-token part at the token `IDLE`. -/
theorem c5_witness : catSub (.str "IDLE") = .str "IDLE" :=
  (c5_categorical_substitution "T1" "V" ["V"] "IDLE"
    (by decide) (by decide) (by decide)).2.2.2.1

/-! ### C3 — invalid mode / invalid summary kind -/

theorem sumTypeOfString?_eq_none (st : String)
    (h1 : st ≠ "average") (h2 : st ≠ "maximum") (h3 : st ≠ "minimum")
    (h4 : st ≠ "total") (h5 : st ≠ "range") (h6 : st ≠ "count")
    (h7 : st ≠ "std_dev") : sumTypeOfString? st = none := by
  simp [sumTypeOfString?, h1, h2, h3, h4, h5, h6, h7]

/-- C3: with at least one point in play, every data type outside
{sampled, summary} makes all four functions fail with the invalid-data-type
error, and — when the data type is summary — every summary kind outside
{average, maximum, minimum, total, range, count, std_dev} makes them fail
with the invalid-summary-kind error (the two `print`-and-`return` sites the
spec calls `InvalidModeError`).  The error value carries no table: no
partial output is returned and nothing falls back to a default. -/
theorem c3_invalid_mode (q vn : List String) (p : PIPoint) (ps : List PIPoint)
    (qs v dataType summaryType : String)
    (hdt1 : dataType ≠ "sampled") (hdt2 : dataType ≠ "summary")
    (hs1 : summaryType ≠ "average") (hs2 : summaryType ≠ "maximum")
    (hs3 : summaryType ≠ "minimum") (hs4 : summaryType ≠ "total")
    (hs5 : summaryType ≠ "range") (hs6 : summaryType ≠ "count")
    (hs7 : summaryType ≠ "std_dev") :
    PIData.PI_Call q vn (p :: ps) dataType summaryType = .error .invalidDataType ∧
    PIData.PI_Call q vn (p :: ps) "summary" summaryType = .error .invalidSummaryType ∧
    PIDataExtraction.PI_Call q vn (p :: ps) dataType summaryType = .error .invalidDataType ∧
    PIDataExtraction.PI_Call q vn (p :: ps) "summary" summaryType = .error .invalidSummaryType ∧
    PIData.PI_Call_Tag (p :: ps) qs v dataType summaryType = .error .invalidDataType ∧
    PIData.PI_Call_Tag (p :: ps) qs v "summary" summaryType = .error .invalidSummaryType ∧
    PIDataExtraction.PI_Call_Tag (p :: ps) qs v dataType summaryType = .error .invalidDataType ∧
    PIDataExtraction.PI_Call_Tag (p :: ps) qs v "summary" summaryType =
      .error .invalidSummaryType := by
  have hst : sumTypeOfString? summaryType = none :=
    sumTypeOfString?_eq_none summaryType hs1 hs2 hs3 hs4 hs5 hs6 hs7
  refine ⟨?_, ?_, ?_, ?_, ?_, ?_, ?_, ?_⟩
  · unfold PIData.PI_Call
    rw [show PIData.collect (p :: ps) dataType summaryType = .error .invalidDataType from by
      simp only [PIData.collect, if_neg hdt1, if_neg hdt2]]
  · unfold PIData.PI_Call
    rw [show PIData.collect (p :: ps) "summary" summaryType = .error .invalidSummaryType from by
      simp [PIData.collect, hst]]
  · unfold PIDataExtraction.PI_Call
    rw [show PIDataExtraction.collect (p :: ps) dataType summaryType =
        .error .invalidDataType from by
      simp only [PIDataExtraction.collect, if_neg hdt1, if_neg hdt2]]
  · unfold PIDataExtraction.PI_Call
    rw [show PIDataExtraction.collect (p :: ps) "summary" summaryType =
        .error .invalidSummaryType from by
      simp [PIDataExtraction.collect, hst]]
  · simp only [PIData.PI_Call_Tag, List.head?_cons, if_neg hdt1, if_neg hdt2]
  · simp [PIData.PI_Call_Tag, hst]
  · simp only [PIDataExtraction.PI_Call_Tag, List.head?_cons, if_neg hdt1, if_neg hdt2]
  · simp [PIDataExtraction.PI_Call_Tag, hst]

/-- C3 witness: the theorem applied at the concrete invalid data type
`calculated` and the concrete invalid summary kind `mean` (which the
docstrings advertise but no branch of the code handles). -/
theorem c3_witness :
    PIData.PI_Call ["T1"] ["V"] [samplePoint] "calculated" "mean" =
      .error .invalidDataType ∧
    PIData.PI_Call ["T1"] ["V"] [samplePoint] "summary" "mean" =
      .error .invalidSummaryType :=
  ⟨(c3_invalid_mode ["T1"] ["V"] samplePoint [] "T1" "V" "calculated" "mean"
      (by decide) (by decide) (by decide) (by decide) (by decide) (by decide)
      (by decide) (by decide) (by decide)).1,
   (c3_invalid_mode ["T1"] ["V"] samplePoint [] "T1" "V" "calculated" "mean"
      (by decide) (by decide) (by decide) (by decide) (by decide) (by decide)
      (by decide) (by decide) (by decide)).2.1⟩

/-! ### C4 — what the code actually checks instead of tag membership -/

/-- Evaluation of the post-concat pipeline of `PI_Call` (`PI_Data.py`) in
summary mode: timezone normalization, numeric coercion, sentinel scrub, and
the positional column assignment, which alone can fail. -/
theorem runSteps_summary_pipeline (vn : List String) (t0 : Table) (h : t0.tzAware = true) :
    runSteps (PIData.PI_Call_steps "summary" vn) t0 =
      if vn.length = t0.cols.length then
        .ok { mapCells scrubCell (mapCells coerceCell { t0 with tzAware := false }) with
              cols := vn }
      else .error .lengthMismatch := by
  have hsteps : PIData.PI_Call_steps "summary" vn =
      [Step.tzConvertLocalize, Step.toNumeric, Step.scrub, Step.setCols vn] := by
    simp [PIData.PI_Call_steps]
  rw [hsteps]
  simp only [runSteps, Step.run, h, if_true, mapCells_cols]
  by_cases hc : vn.length = t0.cols.length
  · simp only [if_pos hc]
  · simp only [if_neg hc]

/-- C4 counterexample: a series whose source tag `X` has no entry in the tag
map `{T1 -> Flow}` does NOT make `PI_Call` raise: since the number of series
matches the number of tag-map entries, the positional column assignment at
`PI_Data.py:159` silently renames the unmapped series to `Flow` and a full
table is returned. -/
theorem c4_counterexample :
    strayPoint.tag ∉ ["T1"] ∧
    PIData.PI_Call ["T1"] ["Flow"] [strayPoint] "summary" "average" =
      .ok { cols := ["Flow"], tzAware := false, rows := [(0, [.num 3])] } := by
  decide

/-- C4 amended: `PI_Call` (`PI_Data.py`) never looks tags up in the tag map;
the only mapping-related failure is the positional length check of
`data.columns = var_names` (line 159): in summary/average mode with at least
one point it fails with the length-mismatch error exactly when the number of
collected series differs from the number of variable names, and whenever it
returns a table the columns are the variable names assigned positionally —
regardless of whether any series' source tag occurs in the tag map. -/
theorem c4_amended (q vn : List String) (p : PIPoint) (ps : List PIPoint) :
    (PIData.PI_Call q vn (p :: ps) "summary" "average" = .error .lengthMismatch ↔
      vn.length ≠ (p :: ps).length) ∧
    (∀ t : Table, PIData.PI_Call q vn (p :: ps) "summary" "average" = .ok t →
      t.cols = vn) := by
  have hcol := PIData.collect_data_summary (p :: ps) "average" .AVERAGE rfl
  set series := (p :: ps).map fun x => (x.summaries .AVERAGE).renameIf "AVERAGE" x.tag
    with hser
  have hcc : concatOuter series = .ok (concatTable series) := by
    rw [hser]
    rfl
  have haware : (concatTable series).tzAware = true := by
    rw [hser]
    simp only [concatTable]
    rw [List.all_eq_true]
    intro x hx
    obtain ⟨y, hy, rfl⟩ := List.mem_map.mp hx
    rfl
  have hcall : PIData.PI_Call q vn (p :: ps) "summary" "average" =
      runSteps (PIData.PI_Call_steps "summary" vn) (concatTable series) := by
    unfold PIData.PI_Call
    simp only [hcol, hcc]
  have hlen : (concatTable series).cols.length = (p :: ps).length := by
    rw [hser]
    simp [concatTable]
  rw [hcall, runSteps_summary_pipeline vn _ haware, hlen]
  constructor
  · by_cases hv : vn.length = (p :: ps).length
    · simp [hv]
    · simp [hv]
  · intro t ht
    by_cases hv : vn.length = (p :: ps).length
    · rw [if_pos hv] at ht
      injection ht with h2
      rw [← h2]
    · rw [if_neg hv] at ht
      exact absurd ht (by simp)

/-- C4 witness: the amended theorem applied concretely — a length mismatch
(two series, one name) raises, and a returned table carries the positional
names. -/
theorem c4_witness :
    PIData.PI_Call ["T1"] ["Flow"] [strayPoint, samplePoint] "summary" "average" =
      .error .lengthMismatch ∧
    Table.cols { cols := ["Flow"], tzAware := false, rows := [(0, [Value.num 3])] } =
      ["Flow"] :=
  ⟨(c4_amended ["T1"] ["Flow"] strayPoint [samplePoint]).1.mpr (by decide),
   (c4_amended ["T1"] ["Flow"] strayPoint []).2 _ (by decide)⟩

/-! ### C1 — column identity -/

/-- Whatever happens earlier in a pipeline ending with `data.columns = vn`,
a returned table carries exactly the names `vn`. -/
theorem runSteps_last_setCols (l : List Step) (vn : List String) (t t' : Table)
    (h : runSteps (l ++ [Step.setCols vn]) t = .ok t') : t'.cols = vn := by
  rw [runSteps_append] at h
  cases hl : runSteps l t with
  | error e =>
      rw [hl] at h
      exact absurd h (by simp)
  | ok tm =>
      simp only [hl] at h
      by_cases hc : vn.length = tm.cols.length
      · have hrun : runSteps [Step.setCols vn] tm = .ok { tm with cols := vn } := by
          simp [runSteps, Step.run, hc]
        rw [hrun] at h
        injection h with h2
        rw [← h2]
      · have hrun : runSteps [Step.setCols vn] tm = .error .lengthMismatch := by
          simp [runSteps, Step.run, hc]
        rw [hrun] at h
        exact absurd h (by simp)

/-- C1 counterexample: on the single-tag path of `PI_Data.py`
(`PI_Call_Tag`) with the summary kind `maximum`, the sole output column is
the historian's summary label `MAXIMUM`, not the caller-supplied variable
name `P1-kW-Max`: line 188 renames only the column `'AVERAGE'`, which a
maximum-summaries frame does not have. -/
theorem c1_counterexample :
    PIData.PI_Call_Tag [samplePoint] "T1" "P1-kW-Max" "summary" "maximum" =
      .ok { cols := ["MAXIMUM"], tzAware := false,
            rows := [(0, [.num 3]), (1, [.num 4])] } ∧
    ("MAXIMUM" : String) ≠ "P1-kW-Max" := by
  decide

/-- C1 amended: column identity holds for the csv paths of both files — a
returned table's columns are exactly the variable names, in tag-map order,
assigned positionally — and for the single-tag path of
`PI-Data-Extraction.py` in summary mode for every recognised kind; but on
the single-tag path of `PI_Data.py` the sole output column is the variable
name only for the summary kind `average` (the counterexample shows `maximum`
keeps the label `MAXIMUM`), and in sampled mode only when the found point's
tag equals the query string used in the rename. -/
theorem c1_amended (q vn : List String) (points : List PIPoint)
    (dataType summaryType qs v : String) :
    (∀ t : Table, PIData.PI_Call q vn points dataType summaryType = .ok t →
      t.cols = vn) ∧
    (∀ t : Table, PIDataExtraction.PI_Call q vn points dataType summaryType = .ok t →
      t.cols = vn) ∧
    (∀ (p : PIPoint) (ps : List PIPoint) (t : Table),
      PIData.PI_Call_Tag (p :: ps) qs v "summary" "average" = .ok t → t.cols = [v]) ∧
    (∀ (p : PIPoint) (ps : List PIPoint) (t : Table), p.tag = qs →
      PIData.PI_Call_Tag (p :: ps) qs v "sampled" summaryType = .ok t → t.cols = [v]) ∧
    (∀ (p : PIPoint) (ps : List PIPoint) (k : SummaryType) (t : Table),
      sumTypeOfString? summaryType = some k →
      PIDataExtraction.PI_Call_Tag (p :: ps) qs v "summary" summaryType = .ok t →
      t.cols = [v]) := by
  refine ⟨?_, ?_, ?_, ?_, ?_⟩
  · intro t h
    unfold PIData.PI_Call at h
    cases hcol : PIData.collect points dataType summaryType with
    | error e => rw [hcol] at h; exact absurd h (by simp)
    | ok series =>
        rw [hcol] at h
        cases hcc : concatOuter series with
        | error e =>
            simp only [hcc] at h
            exact absurd h (by simp)
        | ok t0 =>
            simp only [hcc] at h
            unfold PIData.PI_Call_steps at h
            exact runSteps_last_setCols _ vn t0 t h
  · intro t h
    unfold PIDataExtraction.PI_Call at h
    cases hcol : PIDataExtraction.collect points dataType summaryType with
    | error e => rw [hcol] at h; exact absurd h (by simp)
    | ok series =>
        rw [hcol] at h
        cases hcc : concatOuter series with
        | error e =>
            simp only [hcc] at h
            exact absurd h (by simp)
        | ok t0 =>
            simp only [hcc] at h
            unfold PIDataExtraction.PI_Call_steps at h
            exact runSteps_last_setCols [Step.tzConvertLocalize] vn t0 t h
  · intro p ps t h
    have hred : PIData.PI_Call_Tag (p :: ps) qs v "summary" "average" =
        .ok (mapCells scrubCell (mapCells coerceCell
          { cols := [v], tzAware := false,
            rows := (p.summaryRows SummaryType.AVERAGE).map fun r => (r.1, [r.2]) })) := rfl
    rw [hred] at h
    injection h with h2
    rw [← h2]
    rfl
  · intro p ps t hp h
    have hred : PIData.PI_Call_Tag (p :: ps) qs v "sampled" summaryType =
        .ok (mapCells scrubCell (mapCells coerceCell (dropTailRows
          (renameColTable qs v (mapCells catSub
            { p.interpolated_values.toTable with tzAware := false }))))) := rfl
    rw [hred] at h
    injection h with h2
    rw [← h2]
    simp [renameColTable, dropTailRows_cols, RawSeries.toTable,
      PIPoint.interpolated_values, hp]
  · intro p ps k t hk h
    have hred : PIDataExtraction.PI_Call_Tag (p :: ps) qs v "summary" summaryType =
        runSteps [Step.setCols [v], Step.tzConvertLocalize] (p.summaries k).toTable := by
      simp only [PIDataExtraction.PI_Call_Tag, List.head?_cons, hk]
      rw [if_neg (show ¬("summary" = "sampled") by decide), if_pos trivial]
    rw [hred] at h
    have hrun : runSteps [Step.setCols [v], Step.tzConvertLocalize]
        (p.summaries k).toTable =
        .ok { cols := [v], tzAware := false,
              rows := (p.summaryRows k).map fun r => (r.1, [r.2]) } := rfl
    rw [hrun] at h
    injection h with h2
    rw [← h2]

/-- C1 witness: the amended theorem applied concretely on each path. -/
theorem c1_witness :
    Table.cols { cols := ["Flow"], tzAware := false,
                 rows := [(0, [Value.num 3]), (1, [Value.num 4])] } = ["Flow"] ∧
    Table.cols { cols := ["P200_ON"], tzAware := false,
                 rows := [(0, [Value.num 5]), (1, [Value.num 1])] } = ["P200_ON"] :=
  ⟨(c1_amended ["T1"] ["Flow"] [samplePoint] "summary" "average" "T1" "Flow").1 _
      (by decide),
   (c1_amended ["T1"] ["Flow"] [samplePoint] "sampled" "average" "T1" "P200_ON").2.2.2.1
      samplePoint [] _ (by decide) (by decide)⟩

/-! ### C2 — outer-join completeness -/

/-- C2: the table `pd.concat(axis=1)` assembles (`PI_Data.py:149`,
`PI-Data-Extraction.py:107`) has as its row index the sorted duplicate-free
union of all input series' timestamps — every input timestamp appears,
nothing else does — and each row holds, per input series, that series' value
at the row's timestamp; a timestamp absent from a series yields the
missing-value marker in that series' column (so a timestamp present in only
one series yields the marker in every other column of its row). -/
theorem c2_outer_join (series : List RawSeries) (t : Table)
    (h : concatOuter series = .ok t) :
    t.stamps.Sorted (fun a b => a ≤ b) ∧
    t.stamps.Nodup ∧
    (∀ τ : Int, τ ∈ t.stamps ↔ ∃ s ∈ series, τ ∈ s.stamps) ∧
    (∀ r ∈ t.rows, r.2 = series.map fun s => lookupTS r.1 s.rows) ∧
    (∀ (s : RawSeries) (τ : Int), τ ∉ s.stamps → lookupTS τ s.rows = Value.na) := by
  have ht : t = concatTable series := by
    cases series with
    | nil => simp [concatOuter] at h
    | cons a l =>
        have h' : Except.ok (concatTable (a :: l)) = Except.ok t := h
        injection h' with h2
        exact h2.symm
  subst ht
  have hstamps : (concatTable series).stamps = unionStamps series := by
    show ((unionStamps series).map fun τ =>
        (τ, series.map fun s => lookupTS τ s.rows)).map Prod.fst = unionStamps series
    rw [List.map_map]
    have hid : (Prod.fst ∘ fun τ : Int =>
        (τ, series.map fun s => lookupTS τ s.rows)) = id := rfl
    rw [hid, List.map_id]
  refine ⟨?_, ?_, ?_, ?_, ?_⟩
  · rw [hstamps]
    exact sorted_unionStamps series
  · rw [hstamps]
    exact nodup_unionStamps series
  · intro τ
    rw [hstamps]
    exact mem_unionStamps series τ
  · intro r hr
    simp only [concatTable, List.mem_map] at hr
    obtain ⟨τ, hτ, rfl⟩ := hr
    rfl
  · intro s τ hτ
    exact lookupTS_eq_na τ s.rows hτ

/-- A series with observations at instants 0 and 2. -/
def seriesA : RawSeries := { colName := "T1", tzAware := true, rows := [(0, .num 5), (2, .num 6)] }

/-- A series with a single observation, at instant 1, holding the sentinel. -/
def seriesB : RawSeries := { colName := "T2", tzAware := true, rows := [(1, .str sentinel)] }

/-- C2 witness: the theorem applied to two concrete series with
non-overlapping timestamps. -/
theorem c2_witness :
    (concatTable [seriesA, seriesB]).stamps.Sorted (fun a b => a ≤ b) ∧
    (concatTable [seriesA, seriesB]).stamps.Nodup ∧
    (∀ τ : Int, τ ∈ (concatTable [seriesA, seriesB]).stamps ↔
      ∃ s ∈ [seriesA, seriesB], τ ∈ s.stamps) ∧
    (∀ r ∈ (concatTable [seriesA, seriesB]).rows,
      r.2 = [seriesA, seriesB].map fun s => lookupTS r.1 s.rows) ∧
    (∀ (s : RawSeries) (τ : Int), τ ∉ s.stamps → lookupTS τ s.rows = Value.na) :=
  c2_outer_join [seriesA, seriesB] (concatTable [seriesA, seriesB]) rfl

/-! ### C6 — trailing-row trim in sampled mode only -/

/-- C6: on the single-tag path of `PI_Data.py`, given a fetched series of N
aligned rows (with distinct timestamps, as the historian's fixed-interval
index supplies), the sampled-mode output has exactly N-1 rows while the
summary-mode output has all N rows; the trim
(`data.drop(data.tail(1).index)`, lines 156 and 198) removes the rows
carrying the last index label — exactly the last row on any table with a
duplicate-free index, whatever its content — and does not occur in the
summary pipeline. -/
theorem c6_trailing_trim (p : PIPoint) (ps : List PIPoint) (q v st : String)
    (t ts : Table)
    (hnd : (p.interpRows.map Prod.fst).Nodup)
    (hsam : PIData.PI_Call_Tag (p :: ps) q v "sampled" st = .ok ts)
    (hsum : PIData.PI_Call_Tag (p :: ps) q v "summary" "average" = .ok t) :
    ts.rows.length = p.interpRows.length - 1 ∧
    t.rows.length = (p.summaryRows SummaryType.AVERAGE).length ∧
    (∀ u : Table, u.stamps.Nodup →
      Step.dropTail.run u = .ok (dropTailRows u) ∧
      (dropTailRows u).rows.length = u.rows.length - 1) ∧
    Step.dropTail ∉ PIData.PI_Call_Tag_sumSteps v ++ PIData.postSteps := by
  have hredsam : PIData.PI_Call_Tag (p :: ps) q v "sampled" st =
      .ok (mapCells scrubCell (mapCells coerceCell (dropTailRows
        (renameColTable q v (mapCells catSub
          { p.interpolated_values.toTable with tzAware := false }))))) := rfl
  have hredsum : PIData.PI_Call_Tag (p :: ps) q v "summary" "average" =
      .ok (mapCells scrubCell (mapCells coerceCell
        { cols := [v], tzAware := false,
          rows := (p.summaryRows SummaryType.AVERAGE).map fun r => (r.1, [r.2]) })) := rfl
  rw [hredsam] at hsam
  rw [hredsum] at hsum
  injection hsam with hsam2
  injection hsum with hsum2
  refine ⟨?_, ?_, fun u hu => ⟨rfl, dropTailRows_length u hu⟩, ?_⟩
  · have hX : (renameColTable q v (mapCells catSub
        { p.interpolated_values.toTable with tzAware := false })).stamps =
        p.interpRows.map Prod.fst := by
      simp [Table.stamps, renameColTable, mapCells, RawSeries.toTable,
        PIPoint.interpolated_values, List.map_map, Function.comp]
    have hlen := dropTailRows_length
      (renameColTable q v (mapCells catSub
        { p.interpolated_values.toTable with tzAware := false }))
      (by rw [hX]; exact hnd)
    rw [← hsam2]
    simp only [mapCells_length]
    rw [hlen]
    simp [renameColTable, mapCells, RawSeries.toTable, PIPoint.interpolated_values]
  · rw [← hsum2]
    simp [mapCells]
  · simp [PIData.PI_Call_Tag_sumSteps, PIData.postSteps]

/-- C6 witness: the theorem applied at a concrete point with three
interpolated rows (sampled output: two rows) and two summary rows (summary
output: two rows). -/
theorem c6_witness :
    (Table.rows { cols := ["P200_ON"], tzAware := false,
                  rows := [(0, [Value.num 5]), (1, [Value.num 1])] }).length =
        samplePoint.interpRows.length - 1 ∧
    (Table.rows { cols := ["P200_ON"], tzAware := false,
                  rows := [(0, [Value.num 3]), (1, [Value.num 4])] }).length =
        (samplePoint.summaryRows SummaryType.AVERAGE).length := by
  have happ := c6_trailing_trim samplePoint [] "T1" "P200_ON" "average"
      { cols := ["P200_ON"], tzAware := false,
        rows := [(0, [Value.num 3]), (1, [Value.num 4])] }
      { cols := ["P200_ON"], tzAware := false,
        rows := [(0, [Value.num 5]), (1, [Value.num 1])] }
      (by decide) (by decide) (by decide)
  exact ⟨happ.1, happ.2.1⟩
